import Mathlib

/-!
# scattnlay: the `nmie::MultiLayerMie` wrapper class (`src/nmie-wrapper.h`)

A shallow embedding of the class `MultiLayerMie`.  The header gives the member
fields, the inline member functions `prn`, `SetWavelength`, `GetMaxTermsUsed`,
`GetFieldE`, `GetFieldH`, `GetAn`, `GetBn`, and the bare declarations of every
other member function.

Conventions of the embedding.

* `double` is a type parameter `R`: none of the inline bodies does arithmetic
  on a `double`, so what is proved about them holds for every carrier.
  `std::complex<double>` is a pair `R × R`, `std::vector<T>` is `List T`.
* `long` is the 64-bit two-complement integer of the LP64 targets: a value of
  `Int` between `LONG_MIN` and `LONG_MAX`.  Signed overflow of `++iformat` is
  undefined behaviour in C++; the compiled code wraps from `LONG_MAX` to
  `LONG_MIN`, and so does the model (`wrapLong`).
* `printf` appends to the standard output, modelled as a list of `Out` events.
* A member function whose failure is at issue returns `Except MieError`.
* Where the modelled out-of-line code does arithmetic on a `double` (the
  conversion to size-parameter units), `R` is a field; nothing that is proved
  below depends on the values that arithmetic gives.
-/

namespace nmie

/-- Modelled from the spec: the error kinds.  The header says "Will throw for
any error!" and declares no exception type; the three kinds are the ones the
design document names. -/
inductive MieError where
  | DomainError
  | ConvergenceError
  | ResourceLimitError
  deriving DecidableEq

/-- The type `std::complex<double>` over the carrier `R` of `double`. -/
abbrev Cplx (R : Type) : Type := R × R

/-- One event on the standard output: `printf("%23.13e", var)` writes the
formatted value of `var`, `printf("\n")` writes a line break. -/
inductive Out (R : Type) where
  | value (var : R)
  | newline
  deriving DecidableEq

/-- The data members of `class MultiLayerMie`, with the names of the header.
`iformat` and `output` are public, the others private.  The last three members
are used by the inline getters `GetMaxTermsUsed`, `GetFieldE`, `GetFieldH` but
their declarations are missing from the header; their types are the return
types of those getters. -/
structure MultiLayerMie (R : Type) where
  iformat : Int
  output : Bool
  wavelength_ : R
  total_radius_ : R
  target_width_ : List R
  coating_width_ : List R
  target_index_ : List (Cplx R)
  coating_index_ : List (Cplx R)
  an_ : List (Cplx R)
  bn_ : List (Cplx R)
  coords_sp_ : List (List R)
  Qsca_ch_ : List R
  Qext_ch_ : List R
  Qabs_ch_ : List R
  Qbk_ch_ : List R
  Qpr_ch_ : List R
  Qsca_ch_norm_ : List R
  Qext_ch_norm_ : List R
  Qabs_ch_norm_ : List R
  Qbk_ch_norm_ : List R
  Qpr_ch_norm_ : List R
  nmax_used_ : Int
  E_field_ : List (List (Cplx R))
  H_field_ : List (List (Cplx R))

variable {R : Type}

/-- A newly constructed instance: the default member initialisers of the header
(`iformat = 0`, `output = true`, `wavelength_ = 1.0`, `total_radius_ = 0.0`) and
empty vectors.  `nmax_used_` has no declaration in the header, so its first
value is the parameter `nmax_used0`. -/
def fresh [Zero R] [One R] (nmax_used0 : Int) : MultiLayerMie R where
  iformat := 0
  output := true
  wavelength_ := 1
  total_radius_ := 0
  target_width_ := []
  coating_width_ := []
  target_index_ := []
  coating_index_ := []
  an_ := []
  bn_ := []
  coords_sp_ := []
  Qsca_ch_ := []
  Qext_ch_ := []
  Qabs_ch_ := []
  Qbk_ch_ := []
  Qpr_ch_ := []
  Qsca_ch_norm_ := []
  Qext_ch_norm_ := []
  Qabs_ch_norm_ := []
  Qbk_ch_norm_ := []
  Qpr_ch_norm_ := []
  nmax_used_ := nmax_used0
  E_field_ := []
  H_field_ := []

/-- The largest value of a `long`, 2^63 - 1. -/
def LONG_MAX : Int := 9223372036854775807

/-- The smallest value of a `long`, -2^63. -/
def LONG_MIN : Int := -9223372036854775808

/-- The `long` that a 64-bit two-complement machine keeps of an integer: the
value modulo 2^64 in the range `LONG_MIN .. LONG_MAX`. -/
def wrapLong (x : Int) : Int :=
  (x + 9223372036854775808) % 18446744073709551616 - 9223372036854775808

/-- The member function `void prn(double var)`:
`do { if (!output) break; ++iformat; printf("%23.13e",var);
      if (iformat%4 == 0) printf("\n"); } while (false);`
The result is the instance after the call and what the call wrote.  `++iformat`
is the increment of a `long` (`wrapLong`).  The C++ remainder `%` truncates
towards zero, which is `Int.tmod`. -/
def prn (s : MultiLayerMie R) (var : R) : MultiLayerMie R × List (Out R) :=
  if !s.output then (s, [])
  else
    let s1 : MultiLayerMie R := { s with iformat := wrapLong (s.iformat + 1) }
    (s1, Out.value var :: (if Int.tmod s1.iformat 4 = 0 then [Out.newline] else []))

/-- Consecutive calls `prn(v1); prn(v2); ...` on one instance: the final
instance and everything written, in order. -/
def prnAll (s : MultiLayerMie R) : List R → MultiLayerMie R × List (Out R)
  | [] => (s, [])
  | v :: vs => ((prnAll (prn s v).1 vs).1, (prn s v).2 ++ (prnAll (prn s v).1 vs).2)

/-- Assignment `output = b;` to the public member `output`. -/
def setOutput (s : MultiLayerMie R) (b : Bool) : MultiLayerMie R :=
  { s with output := b }

/-- The member function `void SetWavelength(double wavelength)
{wavelength_ = wavelength;}`.  The body has no `throw`: the call always
returns normally. -/
def SetWavelength (s : MultiLayerMie R) (wavelength : R) : Except MieError (MultiLayerMie R) :=
  .ok { s with wavelength_ := wavelength }

/-- The member function `int GetMaxTermsUsed() {return nmax_used_;}`. -/
def GetMaxTermsUsed (s : MultiLayerMie R) : Int := s.nmax_used_

/-- The member function `GetFieldE(){return E_field_;}`.  The body has no
`throw`: the call always returns normally. -/
def GetFieldE (s : MultiLayerMie R) : Except MieError (List (List (Cplx R))) :=
  .ok s.E_field_

/-- The member function `GetFieldH(){return H_field_;}`.  The body has no
`throw`: the call always returns normally. -/
def GetFieldH (s : MultiLayerMie R) : Except MieError (List (List (Cplx R))) :=
  .ok s.H_field_

/-- The member function `GetAn(){return an_;}`. -/
def GetAn (s : MultiLayerMie R) : List (Cplx R) := s.an_

/-- The member function `GetBn(){return bn_;}`. -/
def GetBn (s : MultiLayerMie R) : List (Cplx R) := s.bn_

/-- Whether an output event is a line break. -/
def Out.isNewline : Out R → Bool
  | Out.newline => true
  | Out.value _ => false

/-- Whether an output event is a formatted value. -/
def Out.isValue : Out R → Bool
  | Out.newline => false
  | Out.value _ => true

/-- The four-per-line layout, written independently of `prn`: the values in
order, a line break after every complete group of four. -/
def layout4 : List R → List (Out R)
  | a :: b :: c :: d :: rest =>
      Out.value a :: Out.value b :: Out.value c :: Out.value d :: Out.newline :: layout4 rest
  | vs => vs.map Out.value

/-! ## The out-of-line part of the class

The header only declares the whole-list setters, `SetMaxTermsNumber`,
`ConvertToSP`, `GenerateSizeParameter`, `GenerateIndex`, `GetLayerWidthSP` and
the computation itself; their bodies are not in the files of the repository.  The
definitions below model them from the design document.  Only what the stated
properties are about is modelled: the storage of the lists, the agreement of
the list lengths, the unit conversion, the truncation order and the production
of the two coefficient sequences.  Further input checks of the design document
(a negative width) and the observables computed from the coefficients are not
modelled. -/

/-- Modelled from the spec: the members that the header does not declare and
the out-of-line functions need.  `mie` holds the members of the header;
`size_parameter_` and `index_` are the size-parameter-unit stack ("one
dimensionless size value per layer boundary" and the matching refractive
indices; the comment of the header on `ClearAllDesign` reads "Layers + SP +
index_"); `nmax_preset_` is the "maximum-term-count configuration option", the
`int` handed to `SetMaxTermsNumber(int nmax)`, absent until the caller
supplies one. -/
structure MieDesign (R : Type) where
  mie : MultiLayerMie R
  size_parameter_ : List R
  index_ : List (Cplx R)
  nmax_preset_ : Option Int

/-- Modelled from the spec: the numerical core, whose code is missing, as
parameters.  `PI` is the constant of "size = 2π·radius/λ"; `rule` is the
"standard empirical rule (a function of the outermost size parameter ... with
a floor)", applied to the outermost size parameter if the stack has one;
`ceiling` is the "internal hard ceiling"; `coefficients sp m n` is the pair
(an, bn) of multipole order `n` that CoefficientRecursion produces for the
sizes `sp` and indices `m`, or the error it fails with. -/
structure Core (R : Type) where
  PI : R
  rule : Option R → Nat
  ceiling : Nat
  coefficients : List R → List (Cplx R) → Nat → Except MieError (Cplx R × Cplx R)

/-- Modelled from the spec: a newly constructed instance with its out-of-line
members: no stack in size-parameter units and no term cap.  Neither the header
nor the design document gives the first value of `nmax_used_`; it is the
parameter `nmax_used0`. -/
def MieDesign.fresh [Zero R] [One R] (nmax_used0 : Int) : MieDesign R where
  mie := nmie.fresh nmax_used0
  size_parameter_ := []
  index_ := []
  nmax_preset_ := none

/-- Modelled from the spec: `SetTargetWidth`, whole-list replacement of the
target widths. -/
def SetTargetWidth (x : MieDesign R) (width : List R) : MieDesign R :=
  { x with mie := { x.mie with target_width_ := width } }

/-- Modelled from the spec: `SetTargetIndex`, whole-list replacement of the
target indices. -/
def SetTargetIndex (x : MieDesign R) (index : List (Cplx R)) : MieDesign R :=
  { x with mie := { x.mie with target_index_ := index } }

/-- Modelled from the spec: `SetCoatingWidth`, whole-list replacement of the
coating widths. -/
def SetCoatingWidth (x : MieDesign R) (width : List R) : MieDesign R :=
  { x with mie := { x.mie with coating_width_ := width } }

/-- Modelled from the spec: `SetCoatingIndex`, whole-list replacement of the
coating indices. -/
def SetCoatingIndex (x : MieDesign R) (index : List (Cplx R)) : MieDesign R :=
  { x with mie := { x.mie with coating_index_ := index } }

/-- Modelled from the spec: `SetWidthSP`, whole-list replacement of the layer
sizes in size-parameter units. -/
def SetWidthSP (x : MieDesign R) (width : List R) : MieDesign R :=
  { x with size_parameter_ := width }

/-- Modelled from the spec: `SetIndexSP`, whole-list replacement of the layer
indices of the size-parameter-unit stack. -/
def SetIndexSP (x : MieDesign R) (index : List (Cplx R)) : MieDesign R :=
  { x with index_ := index }

/-- Modelled from the spec: `void SetMaxTermsNumber(int nmax)`, the caller
supplies an explicit cap on the number of terms.  The argument is an `int`, of
either sign; every `int` is a value of `Int`. -/
def SetMaxTermsNumber (x : MieDesign R) (nmax : Int) : MieDesign R :=
  { x with nmax_preset_ := some nmax }

/-- Modelled from the spec: `GetLayerWidthSP`, the layer sizes in
size-parameter units. -/
def GetLayerWidthSP (x : MieDesign R) : List R := x.size_parameter_

/-- Modelled from the spec: "cumulative radius up to layer i": the running sum
of the widths, inside-out, starting from `radius`. -/
def cumulativeRadius [Add R] (radius : R) : List R → List R
  | [] => []
  | width :: rest => (radius + width) :: cumulativeRadius (radius + width) rest

/-- Modelled from the spec: `GenerateSizeParameter`, "size_i = 2π·(cumulative
radius up to layer i)/wavelength" over the stack "target layers ... followed
by coating layers". -/
def GenerateSizeParameter [Field R] (c : Core R) (x : MieDesign R) : MieDesign R :=
  { x with
    size_parameter_ :=
      (cumulativeRadius 0 (x.mie.target_width_ ++ x.mie.coating_width_)).map
        (fun radius => 2 * c.PI * radius / x.mie.wavelength_) }

/-- Modelled from the spec: `GenerateIndex`, the indices of the stack, target
layers followed by coating layers. -/
def GenerateIndex (x : MieDesign R) : MieDesign R :=
  { x with index_ := x.mie.target_index_ ++ x.mie.coating_index_ }

/-- Modelled from the spec: `ConvertToSP`, the SizeParameterConverter: a stack
given in applied units is turned into size-parameter units; an instance with
no applied-unit layer keeps the size-parameter-unit stack it was given. -/
def ConvertToSP [Field R] (c : Core R) (x : MieDesign R) : MieDesign R :=
  if (x.mie.target_width_ ++ x.mie.coating_width_).isEmpty then x
  else GenerateIndex (GenerateSizeParameter c x)

/-- Modelled from the spec: "Width and index sequences supplied independently
must have matching lengths — mismatch is a contract violation", a
`DomainError` ("mismatched width/index list lengths"), for each of the three
pairs of whole-list setters. -/
def validateStack (x : MieDesign R) : Except MieError Unit :=
  if x.mie.target_width_.length ≠ x.mie.target_index_.length then .error .DomainError
  else if x.mie.coating_width_.length ≠ x.mie.coating_index_.length then .error .DomainError
  else if x.size_parameter_.length ≠ x.index_.length then .error .DomainError
  else .ok ()

/-- Modelled from the spec: the truncation order: the empirical rule for the
outermost size parameter, "unless the caller supplies an explicit cap, in
which case the smaller of the two governs". -/
def truncationOrder (c : Core R) (x : MieDesign R) : Int :=
  match x.nmax_preset_ with
  | none => (c.rule x.size_parameter_.getLast? : Int)
  | some cap => min cap (c.rule x.size_parameter_.getLast? : Int)

/-- Modelled from the spec: "ResourceLimitError (requested or estimated
multipole order exceeds an internal safety ceiling)": whether the order the
rule estimates, or the cap the caller requested, is above the ceiling. -/
def overCeiling (c : Core R) (x : MieDesign R) : Bool :=
  decide ((c.ceiling : Int) < (c.rule x.size_parameter_.getLast? : Int))
    || (match x.nmax_preset_ with
        | none => false
        | some cap => decide ((c.ceiling : Int) < cap))

/-- Modelled from the spec: the coefficients of the given multipole orders, in
order; "There is no partial-result semantics": one failing order fails the
whole. -/
def coefficientsFor (f : Nat → Except MieError (Cplx R × Cplx R)) :
    List Nat → Except MieError (List (Cplx R × Cplx R))
  | [] => .ok []
  | n :: rest =>
    match f n with
    | .error e => .error e
    | .ok ab =>
      match coefficientsFor f rest with
      | .error e => .error e
      | .ok abs => .ok (ab :: abs)

/-- Modelled from the spec: one recomputation pass, "conversion → recursion":
the stack is checked, converted to size-parameter units, the truncation order
is chosen ("exceeding an internal hard ceiling signals a ResourceLimitError"),
and the coefficients of the orders 1..nmax (none when nmax is below 1) are
produced and stored together with the order that governed, the number of
terms `GetMaxTermsUsed` reports. -/
def RunMieCalculation [Field R] (c : Core R) (x : MieDesign R) : Except MieError (MieDesign R) :=
  match validateStack x with
  | .error e => .error e
  | .ok _ =>
    let y := ConvertToSP c x
    let nmax := truncationOrder c y
    if overCeiling c y then .error .ResourceLimitError
    else
      match coefficientsFor (c.coefficients y.size_parameter_ y.index_)
          (List.range' 1 nmax.toNat) with
      | .error e => .error e
      | .ok abs =>
        .ok { y with
              mie := { y.mie with
                       an_ := abs.map Prod.fst
                       bn_ := abs.map Prod.snd
                       nmax_used_ := nmax } }

/-- One call on an instance: the inline member functions and public members of
the header, and the modelled out-of-line ones. -/
inductive Op (R : Type) where
  | SetWavelength (wavelength : R)
  | prn (var : R)
  | setOutput (b : Bool)
  | SetTargetWidth (width : List R)
  | SetTargetIndex (index : List (Cplx R))
  | SetCoatingWidth (width : List R)
  | SetCoatingIndex (index : List (Cplx R))
  | SetWidthSP (width : List R)
  | SetIndexSP (index : List (Cplx R))
  | SetMaxTermsNumber (nmax : Int)
  | RunMieCalculation

/-- The instance after one call; a call that throws leaves the instance as it
was. -/
def Op.apply [Field R] (c : Core R) (x : MieDesign R) : Op R → MieDesign R
  | .SetWavelength wavelength =>
    match nmie.SetWavelength x.mie wavelength with
    | .ok m => { x with mie := m }
    | .error _ => x
  | .prn var => { x with mie := (nmie.prn x.mie var).1 }
  | .setOutput b => { x with mie := nmie.setOutput x.mie b }
  | .SetTargetWidth width => nmie.SetTargetWidth x width
  | .SetTargetIndex index => nmie.SetTargetIndex x index
  | .SetCoatingWidth width => nmie.SetCoatingWidth x width
  | .SetCoatingIndex index => nmie.SetCoatingIndex x index
  | .SetWidthSP width => nmie.SetWidthSP x width
  | .SetIndexSP index => nmie.SetIndexSP x index
  | .SetMaxTermsNumber nmax => nmie.SetMaxTermsNumber x nmax
  | .RunMieCalculation =>
    match nmie.RunMieCalculation c x with
    | .ok y => y
    | .error _ => x

/-! ## Concrete instances over the rationals -/

/-- An instance that holds one computed coefficient of each kind, at the
wavelength 500. -/
def computedInstance : MultiLayerMie ℚ :=
  { (fresh 1 : MultiLayerMie ℚ) with
    wavelength_ := 500
    an_ := [(1 / 2, 1 / 4)]
    bn_ := [(1 / 4, 0)] }

/-- A new instance whose one field observation point has been set to the
origin (0,0,0); no field has been stored yet. -/
def originInstance : MultiLayerMie ℚ :=
  { (fresh 0 : MultiLayerMie ℚ) with coords_sp_ := [[0, 0, 0]] }

/-- A numerical core for examples: the rule gives 3 terms whatever the size,
the ceiling is 150, every order succeeds with the coefficients (1, 0) and
(0, 1). -/
def exampleCore : Core ℚ where
  PI := 355 / 113
  rule := fun _ => 3
  ceiling := 150
  coefficients := fun _ _ _ => .ok ((1, 0), (0, 1))

/-- A one-layer stack given in size-parameter units, with the term cap 2. -/
def exampleDesign : MieDesign ℚ :=
  SetMaxTermsNumber (SetIndexSP (SetWidthSP (MieDesign.fresh 0) [1]) [(3 / 2, 0)]) 2

/-- An instance with output enabled whose public counter is `LONG_MAX`. -/
def overflowInstance : MultiLayerMie ℚ :=
  { (fresh 0 : MultiLayerMie ℚ) with iformat := 9223372036854775807 }

/-- An instance with output enabled whose counter stands at 3. -/
def countingInstance : MultiLayerMie ℚ :=
  { (fresh 0 : MultiLayerMie ℚ) with iformat := 3 }

/-! ## Lemmas on `prn` -/

theorem tmod_four_eq_zero_iff (x : Int) : Int.tmod x 4 = 0 ↔ (4 : Int) ∣ x := by
  constructor
  · intro h; exact Int.dvd_of_tmod_eq_zero h
  · intro h; exact Int.tmod_eq_zero_of_dvd h

theorem wrapLong_succ (x : Int) (hlo : LONG_MIN ≤ x) (hhi : x < LONG_MAX) :
    wrapLong (x + 1) = x + 1 := by
  unfold wrapLong
  unfold LONG_MIN at hlo
  unfold LONG_MAX at hhi
  omega

theorem prn_enabled_wrap (s : MultiLayerMie R) (v : R) (h : s.output = true) :
    prn s v = ({ s with iformat := wrapLong (s.iformat + 1) },
      Out.value v :: (if (4 : Int) ∣ wrapLong (s.iformat + 1) then [Out.newline] else [])) := by
  simp [prn, h, tmod_four_eq_zero_iff]

theorem prn_enabled (s : MultiLayerMie R) (v : R) (h : s.output = true)
    (hlo : LONG_MIN ≤ s.iformat) (hhi : s.iformat < LONG_MAX) :
    prn s v = ({ s with iformat := s.iformat + 1 },
      Out.value v :: (if (4 : Int) ∣ s.iformat + 1 then [Out.newline] else [])) := by
  rw [prn_enabled_wrap s v h, wrapLong_succ _ hlo hhi]

theorem prn_disabled (s : MultiLayerMie R) (v : R) (h : s.output = false) :
    prn s v = (s, []) := by
  simp [prn, h]

theorem prnAll_disabled (s : MultiLayerMie R) (vs : List R) (h : s.output = false) :
    prnAll s vs = (s, []) := by
  induction vs with
  | nil => rfl
  | cons v vs ih => simp [prnAll, prn_disabled s v h, ih]

theorem prn_fst_output (s : MultiLayerMie R) (v : R) : (prn s v).1.output = s.output := by
  unfold prn
  split <;> rfl

theorem prn_fst_enabled (s : MultiLayerMie R) (v : R) (h : s.output = true)
    (hlo : LONG_MIN ≤ s.iformat) (hhi : s.iformat < LONG_MAX) :
    (prn s v).1 = { s with iformat := s.iformat + 1 } := by
  rw [prn_enabled s v h hlo hhi]

theorem prn_snd_enabled (s : MultiLayerMie R) (v : R) (h : s.output = true)
    (hlo : LONG_MIN ≤ s.iformat) (hhi : s.iformat < LONG_MAX) :
    (prn s v).2 = Out.value v :: (if (4 : Int) ∣ s.iformat + 1 then [Out.newline] else []) := by
  rw [prn_enabled s v h hlo hhi]

theorem prn_fst_iformat (s : MultiLayerMie R) (v : R) (h : s.output = true)
    (hlo : LONG_MIN ≤ s.iformat) (hhi : s.iformat < LONG_MAX) :
    (prn s v).1.iformat = s.iformat + 1 := by
  rw [prn_fst_enabled s v h hlo hhi]

theorem prnAll_cons (s : MultiLayerMie R) (v : R) (vs : List R) :
    prnAll s (v :: vs) = ((prnAll (prn s v).1 vs).1, (prn s v).2 ++ (prnAll (prn s v).1 vs).2) :=
  rfl

theorem prnAll_enabled_state (vs : List R) (s : MultiLayerMie R) (h : s.output = true)
    (hlo : LONG_MIN ≤ s.iformat) (hhi : s.iformat + (vs.length : Int) ≤ LONG_MAX) :
    (prnAll s vs).1 = { s with iformat := s.iformat + (vs.length : Int) } := by
  induction vs generalizing s with
  | nil => simp [prnAll]
  | cons v vs ih =>
    simp only [List.length_cons, Nat.cast_add, Nat.cast_one] at hhi
    have hlt : s.iformat < LONG_MAX := by omega
    have o1 := (prn_fst_output s v).trans h
    have i1 := prn_fst_iformat s v h hlo hlt
    rw [prnAll_cons]
    show (prnAll (prn s v).1 vs).1 = _
    rw [ih _ o1 (by omega) (by omega), prn_fst_enabled s v h hlo hlt]
    simp only [List.length_cons, Nat.cast_add, Nat.cast_one]
    congr 1
    omega

theorem prnAll_enabled_trace (vs : List R) (s : MultiLayerMie R) (h : s.output = true)
    (hd : (4 : Int) ∣ s.iformat) (hlo : LONG_MIN ≤ s.iformat)
    (hhi : s.iformat + (vs.length : Int) ≤ LONG_MAX) : (prnAll s vs).2 = layout4 vs := by
  induction vs using layout4.induct generalizing s with
  | case1 a b c d rest ih =>
    simp only [List.length_cons, Nat.cast_add, Nat.cast_one] at hhi
    have o1 := (prn_fst_output s a).trans h
    have i1 := prn_fst_iformat s a h hlo (by omega)
    have o2 := (prn_fst_output _ b).trans o1
    have i2 := prn_fst_iformat _ b o1 (by omega) (by omega)
    have o3 := (prn_fst_output _ c).trans o2
    have i3 := prn_fst_iformat _ c o2 (by omega) (by omega)
    have o4 := (prn_fst_output _ d).trans o3
    have i4 := prn_fst_iformat _ d o3 (by omega) (by omega)
    have h1 : ¬ (4 : Int) ∣ s.iformat + 1 := by omega
    have h2 : ¬ (4 : Int) ∣ (prn s a).1.iformat + 1 := by omega
    have h3 : ¬ (4 : Int) ∣ (prn (prn s a).1 b).1.iformat + 1 := by omega
    have h4 : (4 : Int) ∣ (prn (prn (prn s a).1 b).1 c).1.iformat + 1 := by omega
    have h5 : (4 : Int) ∣ (prn (prn (prn (prn s a).1 b).1 c).1 d).1.iformat := by omega
    have e1 := prn_snd_enabled s a h hlo (by omega)
    have e2 := prn_snd_enabled _ b o1 (by omega : LONG_MIN ≤ (prn s a).1.iformat) (by omega)
    have e3 := prn_snd_enabled _ c o2
      (by omega : LONG_MIN ≤ (prn (prn s a).1 b).1.iformat) (by omega)
    have e4 := prn_snd_enabled _ d o3
      (by omega : LONG_MIN ≤ (prn (prn (prn s a).1 b).1 c).1.iformat) (by omega)
    have e5 := ih _ o4 h5 (by omega) (by omega)
    simp only [prnAll_cons, e1, e2, e3, e4, e5, h1, h2, h3, h4, if_true,
      if_false, layout4, List.cons_append, List.nil_append]
  | case2 vs hsmall =>
    rw [layout4.eq_2 vs hsmall]
    match vs, hsmall, hhi with
    | [], _, _ => rfl
    | [a], _, hhi =>
      simp only [List.length_cons, List.length_nil, Nat.cast_add, Nat.cast_one] at hhi
      have h1 : ¬ (4 : Int) ∣ s.iformat + 1 := by omega
      simp [prnAll, prn_snd_enabled s a h hlo (by omega), h1]
    | [a, b], _, hhi =>
      simp only [List.length_cons, List.length_nil, Nat.cast_add, Nat.cast_one] at hhi
      have o1 := (prn_fst_output s a).trans h
      have i1 := prn_fst_iformat s a h hlo (by omega)
      have h1 : ¬ (4 : Int) ∣ s.iformat + 1 := by omega
      have h2 : ¬ (4 : Int) ∣ (prn s a).1.iformat + 1 := by omega
      simp [prnAll, prn_snd_enabled s a h hlo (by omega),
        prn_snd_enabled _ b o1 (by omega : LONG_MIN ≤ (prn s a).1.iformat) (by omega), h1, h2]
    | [a, b, c], _, hhi =>
      simp only [List.length_cons, List.length_nil, Nat.cast_add, Nat.cast_one] at hhi
      have o1 := (prn_fst_output s a).trans h
      have i1 := prn_fst_iformat s a h hlo (by omega)
      have o2 := (prn_fst_output _ b).trans o1
      have i2 := prn_fst_iformat _ b o1 (by omega) (by omega)
      have h1 : ¬ (4 : Int) ∣ s.iformat + 1 := by omega
      have h2 : ¬ (4 : Int) ∣ (prn s a).1.iformat + 1 := by omega
      have h3 : ¬ (4 : Int) ∣ (prn (prn s a).1 b).1.iformat + 1 := by omega
      simp [prnAll, prn_snd_enabled s a h hlo (by omega),
        prn_snd_enabled _ b o1 (by omega : LONG_MIN ≤ (prn s a).1.iformat) (by omega),
        prn_snd_enabled _ c o2 (by omega : LONG_MIN ≤ (prn (prn s a).1 b).1.iformat) (by omega),
        h1, h2, h3]
    | a :: b :: c :: d :: rest, hs, _ => exact absurd rfl (fun e => hs a b c d rest e)

theorem filter_isValue_map (vs : List R) :
    ((vs.map Out.value).filter Out.isValue).length = vs.length := by
  induction vs with
  | nil => rfl
  | cons v vs ih => simp [Out.isValue, ih]

theorem filter_isNewline_map (vs : List R) :
    ((vs.map Out.value).filter Out.isNewline).length = 0 := by
  induction vs with
  | nil => rfl
  | cons v vs ih => simp [Out.isNewline, ih]

theorem layout4_values (vs : List R) : ((layout4 vs).filter Out.isValue).length = vs.length := by
  induction vs using layout4.induct with
  | case1 a b c d rest ih => simp [layout4, Out.isValue, ih]
  | case2 vs hsmall => rw [layout4.eq_2 vs hsmall, filter_isValue_map]

theorem layout4_newlines (vs : List R) :
    ((layout4 vs).filter Out.isNewline).length = vs.length / 4 := by
  induction vs using layout4.induct with
  | case1 a b c d rest ih =>
    simp [layout4, Out.isNewline, ih]
    omega
  | case2 vs hsmall =>
    rw [layout4.eq_2 vs hsmall, filter_isNewline_map]
    match vs, hsmall with
    | [], _ => simp
    | [a], _ => simp
    | [a, b], _ => simp
    | [a, b, c], _ => simp
    | a :: b :: c :: d :: rest, hs => exact absurd rfl (fun e => hs a b c d rest e)

/-! ## Lemmas on the modelled computation -/

theorem validateStack_mismatch (x : MieDesign R)
    (h : x.mie.target_width_.length ≠ x.mie.target_index_.length
      ∨ x.mie.coating_width_.length ≠ x.mie.coating_index_.length
      ∨ x.size_parameter_.length ≠ x.index_.length) :
    validateStack x = .error .DomainError := by
  unfold validateStack
  split
  · rfl
  · split
    · rfl
    · split
      · rfl
      · rename_i h1 h2 h3
        rcases h with h | h | h
        · exact absurd h h1
        · exact absurd h h2
        · exact absurd h h3

theorem RunMieCalculation_mismatch [Field R] (c : Core R) (x : MieDesign R)
    (h : x.mie.target_width_.length ≠ x.mie.target_index_.length
      ∨ x.mie.coating_width_.length ≠ x.mie.coating_index_.length
      ∨ x.size_parameter_.length ≠ x.index_.length) :
    RunMieCalculation c x = .error .DomainError
      ∧ Op.apply c x Op.RunMieCalculation = x := by
  have hv := validateStack_mismatch x h
  constructor
  · simp [RunMieCalculation, hv]
  · simp [Op.apply, RunMieCalculation, hv]

theorem cap_over_ceiling_rejected :
    RunMieCalculation exampleCore (SetMaxTermsNumber exampleDesign 1000000)
      = .error .ResourceLimitError :=
  rfl

/-- C1, as stated, fails: the instance `computedInstance` holds non-empty
coefficient sequences, and after `SetWavelength(2)` the getters `GetAn` and
`GetBn` still return exactly those sequences. -/
theorem SetWavelength_keeps_coefficients_counterexample :
    GetAn computedInstance ≠ [] ∧ GetBn computedInstance ≠ []
      ∧ (SetWavelength computedInstance 2).map GetAn = .ok (GetAn computedInstance)
      ∧ (SetWavelength computedInstance 2).map GetBn = .ok (GetBn computedInstance) := by
  refine ⟨?_, ?_, rfl, rfl⟩ <;> simp [GetAn, GetBn, computedInstance]

/-- C1, amended: for every instance and every wavelength, `SetWavelength`
returns normally and leaves the stored coefficients as they are: after the
call `GetAn`, `GetBn` and `GetMaxTermsUsed` return what they returned before
it. -/
theorem SetWavelength_keeps_coefficients (s : MultiLayerMie R) (w : R) :
    (SetWavelength s w).map GetAn = .ok (GetAn s)
      ∧ (SetWavelength s w).map GetBn = .ok (GetBn s)
      ∧ (SetWavelength s w).map GetMaxTermsUsed = .ok (GetMaxTermsUsed s) :=
  ⟨rfl, rfl, rfl⟩

/-- C6, as stated, fails: the one field point of `originInstance` is the
origin (0,0,0), and `GetFieldE` and `GetFieldH` return normally, with the
stored (here still empty) field vectors; neither fails with a `DomainError`. -/
theorem GetField_at_origin_counterexample :
    [0, 0, 0] ∈ originInstance.coords_sp_
      ∧ GetFieldE originInstance = .ok []
      ∧ GetFieldH originInstance = .ok []
      ∧ GetFieldE originInstance ≠ .error .DomainError
      ∧ GetFieldH originInstance ≠ .error .DomainError := by
  refine ⟨?_, rfl, rfl, ?_, ?_⟩
  · simp [originInstance]
  · simp [GetFieldE]
  · simp [GetFieldH]

/-- C6, amended: for every instance, whatever its field observation points
(the origin included), `GetFieldE` and `GetFieldH` never fail: they return the
stored vectors `E_field_` and `H_field_` as they are. -/
theorem GetField_returns_stored (s : MultiLayerMie R) :
    GetFieldE s = .ok s.E_field_ ∧ GetFieldH s = .ok s.H_field_
      ∧ (∀ e, GetFieldE s ≠ .error e) ∧ (∀ e, GetFieldH s ≠ .error e) := by
  refine ⟨rfl, rfl, ?_, ?_⟩ <;> intro e <;> simp [GetFieldE, GetFieldH]

/-- C7: for every width list and index list of different lengths supplied
through a pair of whole-list setters, in either order, the computation fails
with a `DomainError` and leaves the instance as it was: no coefficients are
produced from the inconsistent stack. -/
theorem mismatched_lengths_rejected [Field R] (c : Core R) (x : MieDesign R)
    (width : List R) (index : List (Cplx R)) (h : width.length ≠ index.length) :
    ∀ y ∈ [SetTargetIndex (SetTargetWidth x width) index,
        SetTargetWidth (SetTargetIndex x index) width,
        SetCoatingIndex (SetCoatingWidth x width) index,
        SetCoatingWidth (SetCoatingIndex x index) width,
        SetIndexSP (SetWidthSP x width) index,
        SetWidthSP (SetIndexSP x index) width],
      RunMieCalculation c y = .error .DomainError
        ∧ Op.apply c y Op.RunMieCalculation = y := by
  intro y hy
  apply RunMieCalculation_mismatch
  simp only [List.mem_cons, List.mem_singleton, List.not_mem_nil, or_false] at hy
  rcases hy with hy | hy | hy | hy | hy | hy <;> subst hy
  · exact Or.inl h
  · exact Or.inl h
  · exact Or.inr (Or.inl h)
  · exact Or.inr (Or.inl h)
  · exact Or.inr (Or.inr h)
  · exact Or.inr (Or.inr h)

/-- C7 at a concrete input: two widths against one index, through
`SetTargetWidth` and `SetTargetIndex` on a new instance. -/
theorem mismatched_lengths_rejected_witness :
    ([1, 2] : List ℚ).length ≠ ([(3 / 2, 0)] : List (Cplx ℚ)).length
      ∧ RunMieCalculation exampleCore
          (SetTargetIndex (SetTargetWidth (MieDesign.fresh 0) [1, 2]) [(3 / 2, 0)])
        = .error .DomainError :=
  ⟨by decide,
    (mismatched_lengths_rejected exampleCore (MieDesign.fresh 0) [1, 2] [(3 / 2, 0)] (by decide)
      _ (List.mem_cons_self _ _)).1⟩

/-- C8: for every instance and every value `w`, `SetWavelength(w)` returns
normally, the stored wavelength is `w` afterwards, and every other member is
unchanged. -/
theorem SetWavelength_frame (s : MultiLayerMie R) (w : R) :
    ∃ t, SetWavelength s w = .ok t ∧ t.wavelength_ = w
      ∧ t.target_width_ = s.target_width_ ∧ t.coating_width_ = s.coating_width_
      ∧ t.target_index_ = s.target_index_ ∧ t.coating_index_ = s.coating_index_
      ∧ t.total_radius_ = s.total_radius_
      ∧ t.an_ = s.an_ ∧ t.bn_ = s.bn_
      ∧ t.Qsca_ch_ = s.Qsca_ch_ ∧ t.Qext_ch_ = s.Qext_ch_ ∧ t.Qabs_ch_ = s.Qabs_ch_
      ∧ t.Qbk_ch_ = s.Qbk_ch_ ∧ t.Qpr_ch_ = s.Qpr_ch_
      ∧ t.Qsca_ch_norm_ = s.Qsca_ch_norm_ ∧ t.Qext_ch_norm_ = s.Qext_ch_norm_
      ∧ t.Qabs_ch_norm_ = s.Qabs_ch_norm_ ∧ t.Qbk_ch_norm_ = s.Qbk_ch_norm_
      ∧ t.Qpr_ch_norm_ = s.Qpr_ch_norm_
      ∧ t.coords_sp_ = s.coords_sp_
      ∧ t.iformat = s.iformat ∧ t.output = s.output
      ∧ t.nmax_used_ = s.nmax_used_ ∧ t.E_field_ = s.E_field_ ∧ t.H_field_ = s.H_field_
      ∧ t = { s with wavelength_ := w } :=
  ⟨{ s with wavelength_ := w }, rfl, rfl, rfl, rfl, rfl, rfl, rfl, rfl, rfl, rfl, rfl, rfl,
    rfl, rfl, rfl, rfl, rfl, rfl, rfl, rfl, rfl, rfl, rfl, rfl, rfl, rfl⟩

/-- C9, as stated, fails: `iformat` is a public `long`.  On `overflowInstance`
output is enabled and the counter is `LONG_MAX`; the call `prn(1)` leaves the
counter at `LONG_MIN`, not at the counter plus 1. -/
theorem prn_at_LONG_MAX_counterexample :
    overflowInstance.output = true ∧ overflowInstance.iformat = LONG_MAX
      ∧ (prn overflowInstance 1).1.iformat = LONG_MIN
      ∧ (prn overflowInstance 1).1.iformat ≠ overflowInstance.iformat + 1 := by
  refine ⟨rfl, rfl, ?_, ?_⟩
  · rw [prn_enabled_wrap overflowInstance 1 rfl]
    decide
  · rw [prn_enabled_wrap overflowInstance 1 rfl]
    decide

/-- C9, amended: with output enabled, a call to `prn` writes exactly the
formatted value, then a line break exactly when the new counter is a multiple
of 4, and leaves the other members; when the counter is a `long` below
`LONG_MAX` the call increases it by exactly 1.  For every `k` up to
`LONG_MAX`, `k` consecutive calls on a new instance leave `iformat = k` and
write the `k` values in the four-per-line layout: `k` values and `k / 4` line
breaks, one after each 4th value. -/
theorem prn_enabled_four_per_line_in_range [Zero R] [One R] (s : MultiLayerMie R) (v : R)
    (vs : List R) (n0 : Int) :
    (s.output = true →
        (prn s v).1 = { s with iformat := (prn s v).1.iformat }
          ∧ (prn s v).2 = Out.value v ::
              (if (4 : Int) ∣ (prn s v).1.iformat then [Out.newline] else []))
      ∧ (s.output = true → LONG_MIN ≤ s.iformat → s.iformat < LONG_MAX →
          prn s v = ({ s with iformat := s.iformat + 1 },
            Out.value v :: (if (4 : Int) ∣ s.iformat + 1 then [Out.newline] else [])))
      ∧ ((vs.length : Int) ≤ LONG_MAX →
          (prnAll (fresh n0) vs).1 = { (fresh n0 : MultiLayerMie R) with iformat := vs.length }
            ∧ (prnAll (fresh n0) vs).2 = layout4 vs
            ∧ (((prnAll (fresh n0) vs).2).filter Out.isValue).length = vs.length
            ∧ (((prnAll (fresh n0) vs).2).filter Out.isNewline).length = vs.length / 4) := by
  refine ⟨fun h => ?_, prn_enabled s v, fun hk => ?_⟩
  · rw [prn_enabled_wrap s v h]
    exact ⟨rfl, rfl⟩
  · have hlo : LONG_MIN ≤ (fresh n0 : MultiLayerMie R).iformat := by
      show LONG_MIN ≤ (0 : Int)
      decide
    have hhi : (fresh n0 : MultiLayerMie R).iformat + (vs.length : Int) ≤ LONG_MAX := by
      show (0 : Int) + (vs.length : Int) ≤ LONG_MAX
      omega
    have ht : (prnAll (fresh n0 : MultiLayerMie R) vs).2 = layout4 vs :=
      prnAll_enabled_trace vs (fresh n0) rfl (by simp [fresh]) hlo hhi
    refine ⟨?_, ht, ?_, ?_⟩
    · rw [prnAll_enabled_state vs (fresh n0) rfl hlo hhi]
      simp [fresh]
    · rw [ht, layout4_values]
    · rw [ht, layout4_newlines]

/-- C9, amended, at a concrete input: the 4th value on an instance whose
counter stands at 3 is followed by a line break, and five values on a new
instance are written as one line of four and the fifth value. -/
theorem prn_enabled_four_per_line_in_range_witness :
    countingInstance.output = true ∧ LONG_MIN ≤ countingInstance.iformat
      ∧ countingInstance.iformat < LONG_MAX
      ∧ prn countingInstance 7 = ({ countingInstance with iformat := 4 },
          [Out.value 7, Out.newline])
      ∧ (prnAll (fresh 0 : MultiLayerMie ℚ) [1, 2, 3, 4, 5]).2
          = [Out.value 1, Out.value 2, Out.value 3, Out.value 4, Out.newline, Out.value 5] :=
  ⟨rfl, by decide, by decide,
    (prn_enabled_four_per_line_in_range countingInstance 7 [1, 2, 3, 4, 5] 0).2.1 rfl
      (by decide) (by decide),
    ((prn_enabled_four_per_line_in_range countingInstance 7 [1, 2, 3, 4, 5] 0).2.2
      (by decide)).2.1⟩

/-- C10: with output disabled, `prn` writes nothing and leaves the instance as
it is, for one value and for any run of values; so the values printed after
`output` is set again are laid out as if the skipped calls had not been made. -/
theorem prn_disabled_is_noop (s : MultiLayerMie R) (v : R) (skipped vs : List R)
    (h : s.output = false) :
    prn s v = (s, [])
      ∧ prnAll s skipped = (s, [])
      ∧ prnAll (setOutput (prnAll s skipped).1 true) vs = prnAll (setOutput s true) vs := by
  have hs := prnAll_disabled s skipped h
  exact ⟨prn_disabled s v h, hs, by rw [hs]⟩

/-- C10 at a concrete input: with output disabled on a new instance, three
skipped values write nothing, and the values printed once output is enabled
again are laid out as on the new instance. -/
theorem prn_disabled_is_noop_witness :
    (setOutput (fresh 0 : MultiLayerMie ℚ) false).output = false
      ∧ prnAll (setOutput (fresh 0 : MultiLayerMie ℚ) false) [7, 8, 9]
          = (setOutput (fresh 0) false, [])
      ∧ prnAll (setOutput (prnAll (setOutput (fresh 0 : MultiLayerMie ℚ) false) [7, 8, 9]).1 true)
            [1, 2, 3, 4, 5]
          = prnAll (fresh 0) [1, 2, 3, 4, 5] :=
  ⟨rfl,
    (prn_disabled_is_noop (setOutput (fresh 0) false) 7 [7, 8, 9] [1, 2, 3, 4, 5] rfl).2.1,
    (prn_disabled_is_noop (setOutput (fresh 0) false) 7 [7, 8, 9] [1, 2, 3, 4, 5] rfl).2.2⟩

end nmie
